import Mathlib

/-!
# LightBnB data-access layer (`server/database.js`)

A shallow embedding of the six exported operations of `database.js` and of the
SQL text / bound-parameter sequence each of them hands to the query
collaborator `dbi.query`, followed by theorems about them.

Modelling conventions
* JavaScript values that reach this module as filter values, ids or limits are
  scalars (`JSVal`); numbers are the safe integers (`Number.isSafeInteger`), for
  which the template-literal rendering is the decimal numeral.
* The built-in `String.prototype.toLowerCase` is not code of this module: the
  operations that call it take it as the argument `toLowerCase`.
* A promise is modelled by its settled state (`Promise`): resolved with a value
  or rejected with an `Error` object.
* `console.log` / `console.error` only write a diagnostic; the value they return
  (`undefined`) is what the model keeps.
-/

set_option maxRecDepth 100000

namespace LightBnB

/-! ## JavaScript values -/

/-- The safe integers of JavaScript (`Number.isSafeInteger`): the integers of magnitude at most
`2^53 - 1`. On these, `ToString` is the decimal numeral (exponent notation starts at `1e21`), and
the two zeros of JavaScript, which render alike and are both falsy, are the one zero here. -/
abbrev SafeInteger := { n : Int // n.natAbs ≤ 9007199254740991 }

/-- JavaScript scalar values that can occur as a field of `options`, as an id or as a limit. A
number is a safe integer. -/
inductive JSVal where
  | undefined
  | null
  | bool (b : Bool)
  | num (n : SafeInteger)
  | str (s : String)
  deriving DecidableEq, Repr

namespace JSVal

/-- JavaScript truthiness (`ToBoolean`), the test made by `if (v)` and `a && b`. -/
def truthy : JSVal → Bool
  | undefined => false
  | null => false
  | bool b => b
  | num n => !(n.val == 0)
  | str s => !(s == "")

/-- Rendering of a value inside a template literal (`ToString`). -/
def toStr : JSVal → String
  | undefined => "undefined"
  | null => "null"
  | bool true => "true"
  | bool false => "false"
  | num n => toString n.val
  | str s => s

end JSVal

/-- The pair handed to `dbi.query`: SQL text and the bound-parameter array. -/
structure Query where
  text : String
  values : List JSVal
  deriving DecidableEq, Repr

/-! ## Property search: the query built by `getAllProperties` -/

/-- The `options` object of `getAllProperties`; a field that is not supplied reads as `undefined`. -/
structure Options where
  city : JSVal := JSVal.undefined
  owner_id : JSVal := JSVal.undefined
  minimum_price_per_night : JSVal := JSVal.undefined
  maximum_price_per_night : JSVal := JSVal.undefined
  minimum_rating : JSVal := JSVal.undefined
  deriving DecidableEq, Repr

/-- Default parameter `limit = 10`: the default is taken exactly when the argument is `undefined`
(which is also what an omitted argument reads as). -/
def defaultLimit : JSVal → JSVal
  | JSVal.undefined => JSVal.num ⟨10, by decide⟩
  | v => v

/-- The two mutable locals of `getAllProperties`. -/
structure Builder where
  queryParams : List JSVal
  queryString : String
  deriving DecidableEq, Repr

/-- Lines 96-102: empty parameter array and the fixed head of the statement. -/
def initBuilder : Builder :=
  { queryParams := [],
    queryString := "\n  SELECT properties.*, avg(property_reviews.rating) as average_rating\n  FROM properties\n  JOIN property_reviews ON properties.id = property_id\n  " }

/-- `queryParams.push(v)`. -/
def Builder.push (b : Builder) (v : JSVal) : Builder :=
  { b with queryParams := b.queryParams ++ [v] }

/-- `queryString += s`. -/
def Builder.append (b : Builder) (s : String) : Builder :=
  { b with queryString := b.queryString ++ s }

/-- The text of a placeholder, `$${queryParams.length}`. -/
def Builder.placeholder (b : Builder) : String :=
  "$" ++ toString b.queryParams.length

/-- Lines 104-107: the city filter. -/
def cityStep (options : Options) (b : Builder) : Builder :=
  if options.city.truthy then
    let b := b.push (JSVal.str ("%" ++ options.city.toStr ++ "%"))
    b.append ("WHERE city LIKE " ++ b.placeholder ++ " ")
  else b

/-- Lines 108-111: the owner filter. -/
def ownerStep (options : Options) (b : Builder) : Builder :=
  if options.owner_id.truthy then
    let b := b.push (JSVal.str options.owner_id.toStr)
    b.append (if b.queryParams.length > 1 then " AND owner_id = " ++ b.placeholder
      else "WHERE owner_id = " ++ b.placeholder)
  else b

/-- Lines 112-117: the price filter, guarded by both bounds. -/
def priceStep (options : Options) (b : Builder) : Builder :=
  if options.minimum_price_per_night.truthy && options.maximum_price_per_night.truthy then
    let b := b.push (JSVal.str options.minimum_price_per_night.toStr)
    let b := b.append (" AND properties.cost_per_night > " ++ b.placeholder)
    let b := b.push (JSVal.str options.maximum_price_per_night.toStr)
    b.append (" AND properties.cost_per_night < " ++ b.placeholder ++ " ")
  else b

/-- Lines 118-121: the rating filter. -/
def ratingStep (options : Options) (b : Builder) : Builder :=
  if options.minimum_rating.truthy then
    let b := b.push (JSVal.str options.minimum_rating.toStr)
    b.append (" AND property_reviews.rating >= " ++ b.placeholder)
  else b

/-- Lines 124-129: the limit parameter and the tail of the statement. -/
def limitStep (limit : JSVal) (b : Builder) : Builder :=
  let b := b.push limit
  b.append ("\n  GROUP BY properties.id\n  ORDER BY cost_per_night\n  LIMIT " ++ b.placeholder ++ ";\n  ")

/-- Lines 94-129 of `getAllProperties`: the SQL text and parameter array it passes to `dbi.query`. -/
def getAllPropertiesQuery (options : Options) (limit : JSVal) : Query :=
  let b := limitStep (defaultLimit limit)
    (ratingStep options (priceStep options (ownerStep options (cityStep options initBuilder))))
  { text := b.queryString, values := b.queryParams }

/-! ### Which filters a call applies -/

/-- The guard of line 104. -/
def cityApplied (options : Options) : Bool := options.city.truthy

/-- The guard of line 108. -/
def ownerApplied (options : Options) : Bool := options.owner_id.truthy

/-- The guard of line 112. -/
def priceApplied (options : Options) : Bool :=
  options.minimum_price_per_night.truthy && options.maximum_price_per_night.truthy

/-- The guard of line 118. -/
def ratingApplied (options : Options) : Bool := options.minimum_rating.truthy

/-- An options object whose guards evaluate to the four given booleans. -/
def flagOptions (c o p r : Bool) : Options :=
  { city := JSVal.bool c, owner_id := JSVal.bool o,
    minimum_price_per_night := JSVal.bool p, maximum_price_per_night := JSVal.bool p,
    minimum_rating := JSVal.bool r }

/-- Number of bound parameters predicted from the applied filters. -/
def paramCount (options : Options) : Nat :=
  1 + (if cityApplied options then 1 else 0) + (if ownerApplied options then 1 else 0)
    + (if ratingApplied options then 1 else 0) + (if priceApplied options then 2 else 0)

/-! ### Reading SQL text back -/

/-- Words of a text: maximal runs of non-blank characters, in order. The first argument is the
word being read. -/
def splitWords : List Char → List Char → List String
  | cur, [] => if cur.isEmpty then [] else [String.mk cur]
  | cur, c :: cs =>
    if c.isWhitespace then
      (if cur.isEmpty then splitWords [] cs else String.mk cur :: splitWords [] cs)
    else splitWords (cur ++ [c]) cs

/-- The words of an SQL text. -/
def sqlWords (text : String) : List String := splitWords [] text.data

/-- The clause-joining keywords `WHERE` and `AND` of an SQL text, in order of occurrence. -/
def conjunctions (text : String) : List String :=
  (sqlWords text).filter (fun w => w == "WHERE" || w == "AND")

/-- The dollar sign that starts a positional placeholder. -/
def dollarChar : Char := Char.ofNat 36

/-- State of the placeholder scanner. -/
inductive Scan where
  | idle
  | dollar
  | number (n : Nat)
  deriving DecidableEq, Repr

/-- Numbers of the positional placeholders (a dollar sign followed by a maximal run of digits)
of a character sequence, in order of occurrence and with repetitions. -/
def scanPlaceholders : Scan → List Char → List Nat
  | Scan.number n, [] => [n]
  | Scan.idle, [] => []
  | Scan.dollar, [] => []
  | st, c :: cs =>
    if c.isDigit then
      match st with
      | Scan.idle => scanPlaceholders Scan.idle cs
      | Scan.dollar => scanPlaceholders (Scan.number (c.toNat - 48)) cs
      | Scan.number n => scanPlaceholders (Scan.number (10 * n + (c.toNat - 48))) cs
    else
      (match st with
        | Scan.number n => [n]
        | _ => []) ++ scanPlaceholders (if c = dollarChar then Scan.dollar else Scan.idle) cs

/-- The placeholders of an SQL text. -/
def placeholders (text : String) : List Nat := scanPlaceholders Scan.idle text.data

/-- The placeholder that follows the keyword `LIMIT`, when there is one. -/
def limitPlaceholder (text : String) : Option Nat :=
  match (sqlWords text).dropWhile (fun w => !(w == "LIMIT")) with
  | _ :: w :: _ => (placeholders w).head?
  | _ => none

/-! ## The query collaborator and promises -/

/-- An `Error` object, the reason a failing query rejects with. -/
structure JSError where
  message : String
  stack : String
  deriving DecidableEq, Repr

/-- A result row: column names with their values. -/
abbrev Row := List (String × JSVal)

/-- What a successful `dbi.query` resolves with. -/
structure QueryResult where
  rows : List Row
  deriving DecidableEq, Repr

/-- A settled promise. -/
inductive Promise (α : Type) where
  | resolved (v : α)
  | rejected (e : JSError)
  deriving DecidableEq, Repr

/-- The promise method `.then(f)` with a handler that does not throw. -/
def Promise.then_ {α β : Type} (p : Promise α) (f : α → β) : Promise β :=
  match p with
  | Promise.resolved v => Promise.resolved (f v)
  | Promise.rejected e => Promise.rejected e

/-- The promise method `.catch(h)` with a handler that does not throw. -/
def Promise.catch_ {α : Type} (p : Promise α) (h : JSError → α) : Promise α :=
  match p with
  | Promise.resolved v => Promise.resolved v
  | Promise.rejected e => Promise.resolved (h e)

/-- The module `./databaseIndex`, of which only the method `query(text, values)` is used. -/
structure Dbi where
  query : String → List JSVal → Promise QueryResult

/-- Run a built query on the collaborator. -/
def Dbi.run (dbi : Dbi) (q : Query) : Promise QueryResult := dbi.query q.text q.values

/-- What an exported operation's promise can resolve with. -/
inductive Value where
  | undefined
  | record (r : Row)
  | sequence (rs : List Row)
  deriving DecidableEq, Repr

/-- The expression `res.rows[0]`: the first row, `undefined` when there is none. -/
def firstRow (res : QueryResult) : Value :=
  match res.rows with
  | [] => Value.undefined
  | r :: _ => Value.record r

/-- The expression `res.rows`. -/
def allRows (res : QueryResult) : Value := Value.sequence res.rows

/-- The call `console.error(label, stack)` writes a diagnostic and evaluates to `undefined`. -/
def consoleError (_label _stack : String) : Value := Value.undefined

/-! ## Users -/

/-- Lines 12-13: text and values of `getUserWithEmail`. The argument `toLowerCase` stands for
the built-in `String.prototype.toLowerCase`, so that `toLowerCase email` is `email.toLowerCase()`. -/
def getUserWithEmailQuery (toLowerCase : String → String) (email : String) : Query :=
  { text := "SELECT * FROM users WHERE email = $1",
    values := [JSVal.str (toLowerCase email)] }

/-- Lines 11-19. -/
def getUserWithEmail (toLowerCase : String → String) (dbi : Dbi) (email : String) :
    Promise Value :=
  ((dbi.run (getUserWithEmailQuery toLowerCase email)).then_ firstRow).catch_
    (fun error => consoleError "USER NULL" error.stack)

/-- Lines 28-29: text and values of `getUserWithId`. -/
def getUserWithIdQuery (id : JSVal) : Query :=
  { text := "SELECT * FROM users WHERE id = $1",
    values := [id] }

/-- Lines 27-35. -/
def getUserWithId (dbi : Dbi) (id : JSVal) : Promise Value :=
  ((dbi.run (getUserWithIdQuery id)).then_ firstRow).catch_
    (fun error => consoleError "USER NULL" error.stack)

/-- The argument of `addUser`, typed `{name, password, email}` in the source. -/
structure User where
  name : JSVal
  password : JSVal
  email : JSVal
  deriving DecidableEq, Repr

/-- Lines 45-51: text and values of `addUser`. -/
def addUserQuery (user : User) : Query :=
  let userName := user.name
  let userPass := user.password
  let userEmail := user.email
  { text := "INSERT INTO user (name, email, password)\n  VALUES ($1, $2, $3)\n  RETURNING *",
    values := [userName, userPass, userEmail] }

/-- Lines 44-57. -/
def addUser (dbi : Dbi) (user : User) : Promise Value :=
  ((dbi.run (addUserQuery user)).then_ firstRow).catch_
    (fun error => consoleError "Error" error.stack)

/-- The property `user[column]` for the three fields of a user; any other name reads `undefined`. -/
def User.field (user : User) (column : String) : JSVal :=
  if column = "name" then user.name
  else if column = "email" then user.email
  else if column = "password" then user.password
  else JSVal.undefined

/-! ## Reservations -/

/-- Lines 68-77: text and values of `getAllReservations`. -/
def getAllReservationsQuery (guest_id : JSVal) (limit : JSVal) : Query :=
  let limit := defaultLimit limit
  { text := "SELECT reservations.*, properties.*, avg(rating) as average_rating\n  FROM reservations\n  JOIN properties ON reservations.property_id = properties.id\n  JOIN property_reviews ON properties.id = property_reviews.property_id \n  WHERE reservations.guest_id = $1\n  AND reservations.end_date < now()::date\n  GROUP BY properties.id, reservations.id\n  ORDER BY reservations.start_date\n  LIMIT $2",
    values := [guest_id, limit] }

/-- Lines 67-83. -/
def getAllReservations (dbi : Dbi) (guest_id : JSVal) (limit : JSVal) : Promise Value :=
  ((dbi.run (getAllReservationsQuery guest_id limit)).then_ allRows).catch_
    (fun error => consoleError "Error" error.stack)

/-! ## Properties -/

/-- Lines 94-135; the `console.log` of line 131 only writes a diagnostic. -/
def getAllProperties (dbi : Dbi) (options : Options) (limit : JSVal) : Promise Value :=
  (dbi.run (getAllPropertiesQuery options limit)).then_ allRows

/-- The argument of `addProperty`, with the fourteen fields the function reads. -/
structure Property where
  owner_id : JSVal
  title : JSVal
  description : JSVal
  thumbnail_photo_url : JSVal
  cover_photo_url : JSVal
  cost_per_night : JSVal
  street : JSVal
  city : JSVal
  province : JSVal
  post_code : JSVal
  country : JSVal
  parking_spaces : JSVal
  number_of_bathrooms : JSVal
  number_of_bedrooms : JSVal
  deriving DecidableEq, Repr

/-- Lines 145-153: values and text of `addProperty`. -/
def addPropertyQuery (property : Property) : Query :=
  let values := [property.owner_id, property.title, property.description,
    property.thumbnail_photo_url, property.cover_photo_url, property.cost_per_night,
    property.street, property.city, property.province, property.post_code, property.country,
    property.parking_spaces, property.number_of_bathrooms, property.number_of_bedrooms]
  { text := "\n  INSERT INTO properties (owner_id, title, description, thumbnail_photo_url, cover_photo_url, cost_per_night, street, city, province, post_code, \n  country, parking_spaces, number_of_bathrooms, number_of_bedrooms)\n  VALUES ($1, $2, $3, $4, $5, $6, $7, $8, $9, $10, $11, $12, $13, $14) RETURNING *;\n  ",
    values := values }

/-- Lines 144-155. -/
def addProperty (dbi : Dbi) (property : Property) : Promise Value :=
  (dbi.run (addPropertyQuery property)).then_ firstRow

/-! ### Reading an insert or select statement back -/

/-- The word that follows the first occurrence of a keyword, when there is one. -/
def wordAfter (keyword : String) (text : String) : Option String :=
  match (sqlWords text).dropWhile (fun w => !(w == keyword)) with
  | _ :: w :: _ => some w
  | _ => none

/-- The table an `INSERT INTO` statement writes to. -/
def insertTable (text : String) : Option String := wordAfter "INTO" text

/-- The table a `SELECT ... FROM` statement reads from. -/
def fromTable (text : String) : Option String := wordAfter "FROM" text

/-- A word without its brackets and commas. -/
def bareName (w : String) : String :=
  String.mk (w.data.filter (fun c => c.isAlphanum || c = Char.ofNat 95))

/-- The column list of an `INSERT INTO table (columns) VALUES ...` statement. -/
def insertColumns (text : String) : List String :=
  ((((sqlWords text).dropWhile (fun w => !(w == "INTO"))).drop 2).takeWhile
    (fun w => !(w == "VALUES"))).map bareName

/-- A collaborator whose every query fails with the same error. -/
def failingDbi (e : JSError) : Dbi := { query := fun _ _ => Promise.rejected e }

/-- A collaborator whose every query succeeds with the same rows. -/
def constDbi (rows : List Row) : Dbi := { query := fun _ _ => Promise.resolved { rows := rows } }

/-- What `String.prototype.toLowerCase` does on a string of ASCII characters: the letters `A`-`Z`
become `a`-`z`. Used as the instance of the built-in in the examples, all of them ASCII. -/
def asciiToLowerCase (s : String) : String := String.mk (s.data.map Char.toLower)

/-- A collaborator that holds a `users` table: it answers the lookup by address with the rows
whose `email` column is exactly the bound parameter, and rejects every other statement. -/
def usersDbi (table : List Row) : Dbi :=
  { query := fun text values =>
      if text = "SELECT * FROM users WHERE email = $1" then
        match values with
        | [v] => Promise.resolved { rows := table.filter (fun row => row.lookup "email" == some v) }
        | _ => Promise.rejected { message := "wrong number of parameters", stack := "at query" }
      else Promise.rejected { message := "unsupported statement", stack := "at query" } }

/-- The fixed head of the search statement (lines 98-102). -/
def searchHead : String :=
  "\n  SELECT properties.*, avg(property_reviews.rating) as average_rating\n  FROM properties\n  JOIN property_reviews ON properties.id = property_id\n  "

/-- The user of the `addUser` example. -/
def sampleUser : User :=
  { name := JSVal.str "Ann", password := JSVal.str "secret", email := JSVal.str "ann@example.com" }

/-! ## Auxiliary facts -/

theorem truthy_bool (b : Bool) : (JSVal.bool b).truthy = b := rfl

theorem truthy_str_of_ne {c : String} (h : c ≠ "") : (JSVal.str c).truthy = true := by
  simp [JSVal.truthy, h]

theorem truthy_undefined : JSVal.undefined.truthy = false := rfl

/-- The SQL text is the text built for the options that carry only the four guards. -/
theorem text_flags (options : Options) (limit : JSVal) :
    (getAllPropertiesQuery options limit).text =
      (getAllPropertiesQuery (flagOptions (cityApplied options) (ownerApplied options)
        (priceApplied options) (ratingApplied options)) JSVal.undefined).text := by
  simp only [getAllPropertiesQuery, limitStep, ratingStep, priceStep, ownerStep, cityStep,
    initBuilder, Builder.push, Builder.append, Builder.placeholder, flagOptions, cityApplied,
    ownerApplied, priceApplied, ratingApplied, truthy_bool]
  cases options.city.truthy <;> cases options.owner_id.truthy <;>
    cases options.minimum_price_per_night.truthy <;>
    cases options.maximum_price_per_night.truthy <;>
    cases options.minimum_rating.truthy <;> simp

/-- The bound parameters, filter by filter. -/
theorem values_eq (options : Options) (limit : JSVal) :
    (getAllPropertiesQuery options limit).values =
      (if cityApplied options then [JSVal.str ("%" ++ options.city.toStr ++ "%")] else [])
      ++ (if ownerApplied options then [JSVal.str options.owner_id.toStr] else [])
      ++ (if priceApplied options then [JSVal.str options.minimum_price_per_night.toStr,
            JSVal.str options.maximum_price_per_night.toStr] else [])
      ++ (if ratingApplied options then [JSVal.str options.minimum_rating.toStr] else [])
      ++ [defaultLimit limit] := by
  rcases Bool.eq_false_or_eq_true options.city.truthy with h1 | h1 <;>
    rcases Bool.eq_false_or_eq_true options.owner_id.truthy with h2 | h2 <;>
    rcases Bool.eq_false_or_eq_true options.minimum_price_per_night.truthy with h3 | h3 <;>
    rcases Bool.eq_false_or_eq_true options.maximum_price_per_night.truthy with h4 | h4 <;>
    rcases Bool.eq_false_or_eq_true options.minimum_rating.truthy with h5 | h5 <;>
    simp [getAllPropertiesQuery, limitStep, ratingStep, priceStep, ownerStep, cityStep,
      initBuilder, Builder.push, Builder.append, Builder.placeholder, cityApplied,
      ownerApplied, priceApplied, ratingApplied, h1, h2, h3, h4, h5]

theorem values_length (options : Options) (limit : JSVal) :
    (getAllPropertiesQuery options limit).values.length = paramCount options := by
  rw [values_eq]
  unfold paramCount
  cases cityApplied options <;> cases ownerApplied options <;> cases priceApplied options <;>
    cases ratingApplied options <;> simp

theorem placeholders_flags (c o p r : Bool) :
    placeholders (getAllPropertiesQuery (flagOptions c o p r) JSVal.undefined).text =
      List.range' 1 (paramCount (flagOptions c o p r)) := by
  cases c <;> cases o <;> cases p <;> cases r <;> rfl

theorem paramCount_flags (options : Options) :
    paramCount (flagOptions (cityApplied options) (ownerApplied options)
      (priceApplied options) (ratingApplied options)) = paramCount options := by
  simp [paramCount, flagOptions, cityApplied, ownerApplied, priceApplied, ratingApplied,
    truthy_bool]

theorem limitPlaceholder_flags (c o p r : Bool) :
    limitPlaceholder (getAllPropertiesQuery (flagOptions c o p r) JSVal.undefined).text =
      some (paramCount (flagOptions c o p r)) := by
  cases c <;> cases o <;> cases p <;> cases r <;> rfl

theorem no_price_word_flags (c o r : Bool) :
    ("properties.cost_per_night" ∈
      sqlWords (getAllPropertiesQuery (flagOptions c o false r) JSVal.undefined).text) = False := by
  cases c <;> cases o <;> cases r <;> decide

/-- The clause-joining keywords of the text in terms of the applied filters: a `WHERE` exactly
when the city or the owner filter is applied, and an `AND` for the owner clause after a city
clause, for each of the two price clauses and for the rating clause. -/
theorem conjunctions_eq (options : Options) (limit : JSVal) :
    conjunctions (getAllPropertiesQuery options limit).text =
      (if cityApplied options || ownerApplied options then ["WHERE"] else [])
      ++ List.replicate
          ((if cityApplied options && ownerApplied options then 1 else 0)
            + (if priceApplied options then 2 else 0)
            + (if ratingApplied options then 1 else 0)) "AND" := by
  rw [text_flags]
  cases cityApplied options <;> cases ownerApplied options <;> cases priceApplied options <;>
    cases ratingApplied options <;> rfl

theorem toLower_toLower (c : Char) : c.toLower.toLower = c.toLower := by
  by_cases h : c.toNat ≥ 65 ∧ c.toNat ≤ 90
  · have hc : c.toLower = Char.ofNat (c.toNat + 32) := by
      simp only [Char.toLower]; rw [if_pos h]
    rw [hc]
    obtain ⟨h1, h2⟩ := h
    generalize c.toNat = n at h1 h2
    interval_cases n <;> decide
  · have hc : c.toLower = c := by
      simp only [Char.toLower]; rw [if_neg h]
    rw [hc, hc]

theorem asciiToLowerCase_idem (s : String) :
    asciiToLowerCase (asciiToLowerCase s) = asciiToLowerCase s := by
  simp [asciiToLowerCase, List.map_map, Function.comp_def, toLower_toLower]

/-! ## Property search -/

/-- C1, evaluated at the options `{minimum_rating: 4}`: the only filter clause emitted is
introduced by `AND`; the text built by `getAllProperties` contains no `WHERE` at all. -/
theorem getAllProperties_rating_only_has_no_where :
    (getAllPropertiesQuery { minimum_rating := JSVal.num ⟨4, by decide⟩ } JSVal.undefined).text
        = searchHead ++ " AND property_reviews.rating >= $1"
            ++ "\n  GROUP BY properties.id\n  ORDER BY cost_per_night\n  LIMIT $2;\n  "
      ∧ conjunctions (getAllPropertiesQuery { minimum_rating := JSVal.num ⟨4, by decide⟩ } JSVal.undefined).text
        = ["AND"] := by
  constructor <;> rfl

/-- C2: when exactly one of `minimum_price_per_night` and `maximum_price_per_night` is supplied,
`getAllProperties` builds the same text and the same parameters as for the options without the two
price fields; no `properties.cost_per_night` clause occurs in the text, and the parameters are those
of the city, owner and rating filters followed by the limit. -/
theorem getAllProperties_single_price_bound_ignored (options : Options) (limit : JSVal)
    (h : (options.minimum_price_per_night = JSVal.undefined
            ∧ options.maximum_price_per_night ≠ JSVal.undefined)
          ∨ (options.minimum_price_per_night ≠ JSVal.undefined
            ∧ options.maximum_price_per_night = JSVal.undefined)) :
    getAllPropertiesQuery options limit
        = getAllPropertiesQuery
            { options with minimum_price_per_night := JSVal.undefined,
                           maximum_price_per_night := JSVal.undefined } limit
      ∧ "properties.cost_per_night" ∉ sqlWords (getAllPropertiesQuery options limit).text
      ∧ (getAllPropertiesQuery options limit).values
        = (if cityApplied options then [JSVal.str ("%" ++ options.city.toStr ++ "%")] else [])
          ++ (if ownerApplied options then [JSVal.str options.owner_id.toStr] else [])
          ++ (if ratingApplied options then [JSVal.str options.minimum_rating.toStr] else [])
          ++ [defaultLimit limit] := by
  have hp : priceApplied options = false := by
    rcases h with ⟨h1, _⟩ | ⟨_, h2⟩
    · simp [priceApplied, h1, truthy_undefined]
    · simp [priceApplied, h2, truthy_undefined]
  have hp2 : (options.minimum_price_per_night.truthy
      && options.maximum_price_per_night.truthy) = false := hp
  refine ⟨?_, ?_, ?_⟩
  · simp [getAllPropertiesQuery, priceStep, hp2, truthy_undefined, ratingStep, ownerStep,
      cityStep]
  · rw [text_flags, hp, no_price_word_flags]
    exact not_false
  · rw [values_eq, hp]
    simp

/-- Witness for C2: only the minimum price is supplied, next to a city. -/
theorem getAllProperties_single_price_bound_ignored_witness :
    getAllPropertiesQuery { city := JSVal.str "van", minimum_price_per_night := JSVal.num ⟨50, by decide⟩ }
        (JSVal.num ⟨5, by decide⟩)
      = getAllPropertiesQuery { city := JSVal.str "van" } (JSVal.num ⟨5, by decide⟩) :=
  (getAllProperties_single_price_bound_ignored
    { city := JSVal.str "van", minimum_price_per_night := JSVal.num ⟨50, by decide⟩ } (JSVal.num ⟨5, by decide⟩)
    (Or.inr ⟨by decide, by decide⟩)).1

/-- C3 as stated fails: for city `"van"` and owner id `3` the second bound parameter is the string
`"3"`, not the number `3` that was supplied. -/
theorem getAllProperties_owner_parameter_is_not_the_number :
    (getAllPropertiesQuery { city := JSVal.str "van", owner_id := JSVal.num ⟨3, by decide⟩ }
        (JSVal.num ⟨10, by decide⟩)).values
        = [JSVal.str "%van%", JSVal.str "3", JSVal.num ⟨10, by decide⟩]
      ∧ (getAllPropertiesQuery { city := JSVal.str "van", owner_id := JSVal.num ⟨3, by decide⟩ }
          (JSVal.num ⟨10, by decide⟩)).values
        ≠ [JSVal.str "%van%", JSVal.num ⟨3, by decide⟩, JSVal.num ⟨10, by decide⟩] := by
  constructor <;> decide

/-- C3, amended: for a non-empty city `c`, a truthy owner id `o`, no other filter and any limit
`l`, the text is the head, the city clause introduced by `WHERE` with `$1`, the owner clause
introduced by `AND` with `$2`, and the tail with `LIMIT $3`; the parameters are the wildcard-wrapped
city, the template-literal rendering of `o` (a string) and the limit, in that order. -/
theorem getAllProperties_city_and_owner (c : String) (o l : JSVal)
    (hc : c ≠ "") (ho : o.truthy = true) :
    (getAllPropertiesQuery { city := JSVal.str c, owner_id := o } l).text
        = searchHead ++ "WHERE city LIKE $1 " ++ " AND owner_id = $2"
            ++ "\n  GROUP BY properties.id\n  ORDER BY cost_per_night\n  LIMIT $3;\n  "
      ∧ (getAllPropertiesQuery { city := JSVal.str c, owner_id := o } l).values
        = [JSVal.str ("%" ++ c ++ "%"), JSVal.str o.toStr, defaultLimit l] := by
  constructor
  · rw [text_flags]
    simp only [cityApplied, ownerApplied, priceApplied, ratingApplied, truthy_str_of_ne hc, ho,
      truthy_undefined, Bool.and_self]
    rfl
  · rw [values_eq]
    simp [cityApplied, ownerApplied, priceApplied, ratingApplied, truthy_str_of_ne hc, ho,
      truthy_undefined, JSVal.toStr]

/-- Witness for the amended C3: city `"van"`, owner id `3`, limit omitted. -/
theorem getAllProperties_city_and_owner_witness :
    (getAllPropertiesQuery { city := JSVal.str "van", owner_id := JSVal.num ⟨3, by decide⟩ }
        JSVal.undefined).values
      = [JSVal.str ("%" ++ "van" ++ "%"), JSVal.str (JSVal.num ⟨3, by decide⟩).toStr,
          defaultLimit JSVal.undefined] :=
  (getAllProperties_city_and_owner "van" (JSVal.num ⟨3, by decide⟩) JSVal.undefined (by decide) (by decide)).2

/-- C4: two calls of `getAllProperties` that apply the same filters build the same SQL text,
whatever the filter values and the limits are. -/
theorem getAllProperties_text_independent_of_values (o₁ o₂ : Options) (l₁ l₂ : JSVal)
    (hc : cityApplied o₁ = cityApplied o₂) (ho : ownerApplied o₁ = ownerApplied o₂)
    (hp : priceApplied o₁ = priceApplied o₂) (hr : ratingApplied o₁ = ratingApplied o₂) :
    (getAllPropertiesQuery o₁ l₁).text = (getAllPropertiesQuery o₂ l₂).text := by
  rw [text_flags o₁ l₁, text_flags o₂ l₂, hc, ho, hp, hr]

/-- Witness for C4: two searches with a city and a price range, one of them with a hostile city
string, and different limits. -/
theorem getAllProperties_text_independent_of_values_witness :
    (getAllPropertiesQuery
        { city := JSVal.str "van", minimum_price_per_night := JSVal.num ⟨1, by decide⟩,
          maximum_price_per_night := JSVal.num ⟨5, by decide⟩ } (JSVal.num ⟨5, by decide⟩)).text
      = (getAllPropertiesQuery
        { city := JSVal.str "van; DROP TABLE users", minimum_price_per_night := JSVal.str "100",
          maximum_price_per_night := JSVal.str "200" } (JSVal.num ⟨20, by decide⟩)).text :=
  getAllProperties_text_independent_of_values _ _ _ _ (by decide) (by decide) (by decide)
    (by decide)

/-- C5: the last bound parameter of `getAllProperties` is the limit, which is 10 when the limit
argument is omitted, and the placeholder of the `LIMIT` clause is numbered by the length of the
parameter sequence. -/
theorem getAllProperties_limit_is_last (options : Options) (limit : JSVal) :
    (getAllPropertiesQuery options limit).values.getLast?
        = some (if limit = JSVal.undefined then JSVal.num ⟨10, by decide⟩ else limit)
      ∧ limitPlaceholder (getAllPropertiesQuery options limit).text
        = some (getAllPropertiesQuery options limit).values.length := by
  constructor
  · rw [values_eq]
    cases limit <;> simp [defaultLimit]
  · rw [values_length, text_flags, limitPlaceholder_flags, paramCount_flags]

/-- C10: the placeholders of the text built by `getAllProperties` are `$1, ..., $n` in this order,
each once, where `n` is the number of bound parameters; `n` is one, plus one for each of city,
owner and rating that is applied, plus two for the price pair, and lies between 1 and 6. -/
theorem getAllProperties_placeholders (options : Options) (limit : JSVal) :
    placeholders (getAllPropertiesQuery options limit).text
        = List.range' 1 (getAllPropertiesQuery options limit).values.length
      ∧ (getAllPropertiesQuery options limit).values.length
        = 1 + (if cityApplied options then 1 else 0) + (if ownerApplied options then 1 else 0)
            + (if ratingApplied options then 1 else 0) + (if priceApplied options then 2 else 0)
      ∧ 1 ≤ (getAllPropertiesQuery options limit).values.length
      ∧ (getAllPropertiesQuery options limit).values.length ≤ 6 := by
  refine ⟨?_, ?_, ?_, ?_⟩
  · rw [values_length, text_flags, placeholders_flags, paramCount_flags]
  · rw [values_length]; rfl
  · rw [values_length]; unfold paramCount; omega
  · rw [values_length]; unfold paramCount
    cases cityApplied options <;> cases ownerApplied options <;> cases priceApplied options <;>
      cases ratingApplied options <;> simp

/-! ## Users, reservations and the two error policies -/

/-- C6: `getUserWithEmail` issues the `users` lookup with the lowercased address as its single
bound parameter, and resolves to the first row the collaborator returns for exactly that text and
parameter. Lowercasing being idempotent (as the built-in is), the address and its lowercased form
issue the same text and parameters and give the same result on the same collaborator; where
lowercasing `"Foo@Bar.com"` gives `"foo@bar.com"`, looking up the former issues the lookup for the
latter. -/
theorem getUserWithEmail_lowercases (toLowerCase : String → String)
    (hidem : ∀ s, toLowerCase (toLowerCase s) = toLowerCase s) (e : String) :
    getUserWithEmailQuery toLowerCase e
        = { text := "SELECT * FROM users WHERE email = $1",
            values := [JSVal.str (toLowerCase e)] }
      ∧ (∀ (dbi : Dbi) (r : Row) (rs : List Row),
          dbi.query "SELECT * FROM users WHERE email = $1" [JSVal.str (toLowerCase e)]
              = Promise.resolved { rows := r :: rs } →
            getUserWithEmail toLowerCase dbi e = Promise.resolved (Value.record r))
      ∧ getUserWithEmailQuery toLowerCase (toLowerCase e) = getUserWithEmailQuery toLowerCase e
      ∧ (∀ dbi : Dbi,
          getUserWithEmail toLowerCase dbi (toLowerCase e) = getUserWithEmail toLowerCase dbi e)
      ∧ (toLowerCase "Foo@Bar.com" = "foo@bar.com" →
          getUserWithEmailQuery toLowerCase "Foo@Bar.com"
              = { text := "SELECT * FROM users WHERE email = $1",
                  values := [JSVal.str "foo@bar.com"] }
            ∧ ∀ dbi : Dbi, getUserWithEmail toLowerCase dbi "Foo@Bar.com"
                = getUserWithEmail toLowerCase dbi "foo@bar.com") := by
  have hq : getUserWithEmailQuery toLowerCase (toLowerCase e)
      = getUserWithEmailQuery toLowerCase e := by
    simp [getUserWithEmailQuery, hidem]
  refine ⟨rfl, ?_, hq, ?_, ?_⟩
  · intro dbi r rs h
    simp [getUserWithEmail, getUserWithEmailQuery, Dbi.run, h, Promise.then_, Promise.catch_,
      firstRow]
  · intro dbi
    simp only [getUserWithEmail, hq]
  · intro hfoo
    have hfoo2 : toLowerCase "foo@bar.com" = "foo@bar.com" := by
      rw [← hfoo, hidem]
    refine ⟨by simp [getUserWithEmailQuery, hfoo], ?_⟩
    intro dbi
    simp [getUserWithEmail, getUserWithEmailQuery, hfoo, hfoo2]

/-- Witness for C6: on a `users` table that stores `"foo@bar.com"`, looking up `"Foo@Bar.com"`
finds the stored user. -/
theorem getUserWithEmail_lowercases_witness :
    getUserWithEmail asciiToLowerCase
        (usersDbi [[("id", JSVal.num ⟨1, by decide⟩), ("email", JSVal.str "foo@bar.com")],
          [("id", JSVal.num ⟨2, by decide⟩), ("email", JSVal.str "ann@example.com")]])
        "Foo@Bar.com"
      = Promise.resolved
          (Value.record [("id", JSVal.num ⟨1, by decide⟩), ("email", JSVal.str "foo@bar.com")]) :=
  (getUserWithEmail_lowercases asciiToLowerCase asciiToLowerCase_idem "Foo@Bar.com").2.1
    (usersDbi [[("id", JSVal.num ⟨1, by decide⟩), ("email", JSVal.str "foo@bar.com")],
      [("id", JSVal.num ⟨2, by decide⟩), ("email", JSVal.str "ann@example.com")]])
    _ [] (by decide)

/-- C7: whatever the collaborator does, `getUserWithEmail`, `getUserWithId`, `addUser` and
`getAllReservations` never reject; when the query fails each of them resolves to `undefined`,
which is also what the two lookups resolve to on zero rows, and for `getAllReservations` the
failure result is `undefined`, not the empty sequence. -/
theorem swallowing_operations_resolve_undefined (toLowerCase : String → String) (dbi : Dbi)
    (email : String) (id : JSVal) (user : User) (guest_id limit : JSVal) :
    ((∀ e, getUserWithEmail toLowerCase dbi email ≠ Promise.rejected e)
        ∧ (∀ e, getUserWithId dbi id ≠ Promise.rejected e)
        ∧ (∀ e, addUser dbi user ≠ Promise.rejected e)
        ∧ (∀ e, getAllReservations dbi guest_id limit ≠ Promise.rejected e))
      ∧ ((∀ e, dbi.run (getUserWithEmailQuery toLowerCase email) = Promise.rejected e →
            getUserWithEmail toLowerCase dbi email = Promise.resolved Value.undefined)
        ∧ (∀ e, dbi.run (getUserWithIdQuery id) = Promise.rejected e →
            getUserWithId dbi id = Promise.resolved Value.undefined)
        ∧ (∀ e, dbi.run (addUserQuery user) = Promise.rejected e →
            addUser dbi user = Promise.resolved Value.undefined)
        ∧ (∀ e, dbi.run (getAllReservationsQuery guest_id limit) = Promise.rejected e →
            getAllReservations dbi guest_id limit = Promise.resolved Value.undefined
              ∧ getAllReservations dbi guest_id limit ≠ Promise.resolved (Value.sequence [])))
      ∧ ((dbi.run (getUserWithEmailQuery toLowerCase email) = Promise.resolved { rows := [] } →
            getUserWithEmail toLowerCase dbi email = Promise.resolved Value.undefined)
        ∧ (dbi.run (getUserWithIdQuery id) = Promise.resolved { rows := [] } →
            getUserWithId dbi id = Promise.resolved Value.undefined)) := by
  refine ⟨⟨?_, ?_, ?_, ?_⟩, ⟨?_, ?_, ?_, ?_⟩, ⟨?_, ?_⟩⟩
  · intro e
    unfold getUserWithEmail
    cases dbi.run (getUserWithEmailQuery toLowerCase email) <;> simp [Promise.then_, Promise.catch_]
  · intro e
    unfold getUserWithId
    cases dbi.run (getUserWithIdQuery id) <;> simp [Promise.then_, Promise.catch_]
  · intro e
    unfold addUser
    cases dbi.run (addUserQuery user) <;> simp [Promise.then_, Promise.catch_]
  · intro e
    unfold getAllReservations
    cases dbi.run (getAllReservationsQuery guest_id limit) <;>
      simp [Promise.then_, Promise.catch_]
  · intro e h
    simp [getUserWithEmail, h, Promise.then_, Promise.catch_, consoleError]
  · intro e h
    simp [getUserWithId, h, Promise.then_, Promise.catch_, consoleError]
  · intro e h
    simp [addUser, h, Promise.then_, Promise.catch_, consoleError]
  · intro e h
    simp [getAllReservations, h, Promise.then_, Promise.catch_, consoleError]
  · intro h
    simp [getUserWithEmail, h, Promise.then_, Promise.catch_, firstRow]
  · intro h
    simp [getUserWithId, h, Promise.then_, Promise.catch_, firstRow]

/-- Witness for C7: a collaborator that rejects every query. -/
theorem swallowing_operations_resolve_undefined_witness :
    getUserWithEmail asciiToLowerCase
        (failingDbi { message := "connection refused", stack := "at query" })
        "Foo@Bar.com" = Promise.resolved Value.undefined
      ∧ getAllReservations (failingDbi { message := "connection refused", stack := "at query" })
        (JSVal.num ⟨7, by decide⟩) JSVal.undefined = Promise.resolved Value.undefined :=
  ⟨(swallowing_operations_resolve_undefined asciiToLowerCase
      (failingDbi { message := "connection refused", stack := "at query" }) "Foo@Bar.com"
      (JSVal.num ⟨7, by decide⟩) sampleUser (JSVal.num ⟨7, by decide⟩) JSVal.undefined).2.1.1 _ rfl,
   ((swallowing_operations_resolve_undefined asciiToLowerCase
      (failingDbi { message := "connection refused", stack := "at query" }) "Foo@Bar.com"
      (JSVal.num ⟨7, by decide⟩) sampleUser (JSVal.num ⟨7, by decide⟩) JSVal.undefined).2.1.2.2.2 _ rfl).1⟩

/-- C8: `getAllProperties` and `addProperty` reject exactly when the collaborator's query rejects,
and with the same error; when the query succeeds `getAllProperties` resolves to all its rows and
`addProperty` to its first row. -/
theorem propagating_operations (dbi : Dbi) (options : Options) (limit : JSVal)
    (property : Property) :
    (∀ e, getAllProperties dbi options limit = Promise.rejected e
        ↔ dbi.run (getAllPropertiesQuery options limit) = Promise.rejected e)
      ∧ (∀ res, dbi.run (getAllPropertiesQuery options limit) = Promise.resolved res →
          getAllProperties dbi options limit = Promise.resolved (Value.sequence res.rows))
      ∧ (∀ e, addProperty dbi property = Promise.rejected e
        ↔ dbi.run (addPropertyQuery property) = Promise.rejected e)
      ∧ (∀ r rs, dbi.run (addPropertyQuery property) = Promise.resolved { rows := r :: rs } →
          addProperty dbi property = Promise.resolved (Value.record r)) := by
  refine ⟨?_, ?_, ?_, ?_⟩
  · intro e
    unfold getAllProperties
    cases dbi.run (getAllPropertiesQuery options limit) <;> simp [Promise.then_]
  · intro res h
    simp [getAllProperties, h, Promise.then_, allRows]
  · intro e
    unfold addProperty
    cases dbi.run (addPropertyQuery property) <;> simp [Promise.then_]
  · intro r rs h
    simp [addProperty, h, Promise.then_, firstRow]

/-- Witness for C8: a rejecting collaborator makes `getAllProperties` reject with its error, and a
collaborator returning two rows makes it resolve to both. -/
theorem propagating_operations_witness :
    getAllProperties (failingDbi { message := "connection refused", stack := "at query" })
        { city := JSVal.str "van" } JSVal.undefined
        = Promise.rejected { message := "connection refused", stack := "at query" }
      ∧ getAllProperties (constDbi [[("id", JSVal.num ⟨1, by decide⟩)], [("id", JSVal.num ⟨2, by decide⟩)]])
        { city := JSVal.str "van" } JSVal.undefined
        = Promise.resolved (Value.sequence [[("id", JSVal.num ⟨1, by decide⟩)], [("id", JSVal.num ⟨2, by decide⟩)]]) :=
  ⟨((propagating_operations
      (failingDbi { message := "connection refused", stack := "at query" })
      { city := JSVal.str "van" } JSVal.undefined
      ⟨JSVal.num ⟨1, by decide⟩, JSVal.null, JSVal.null, JSVal.null, JSVal.null, JSVal.null, JSVal.null,
        JSVal.null, JSVal.null, JSVal.null, JSVal.null, JSVal.null, JSVal.null, JSVal.null⟩).1
      _).2 rfl,
   (propagating_operations (constDbi [[("id", JSVal.num ⟨1, by decide⟩)], [("id", JSVal.num ⟨2, by decide⟩)]])
      { city := JSVal.str "van" } JSVal.undefined
      ⟨JSVal.num ⟨1, by decide⟩, JSVal.null, JSVal.null, JSVal.null, JSVal.null, JSVal.null, JSVal.null,
        JSVal.null, JSVal.null, JSVal.null, JSVal.null, JSVal.null, JSVal.null, JSVal.null⟩).2.1
      _ rfl⟩

/-- C9, evaluated at the user `{name: "Ann", password: "secret", email: "ann@example.com"}`: the
column list of the insert statement of `addUser` is `(name, email, password)` with placeholders
`$1, $2, $3`, but the bound parameters are name, password, email, so the password is bound to the
`email` column and the address to the `password` column; and the statement writes to the table
`user`, while both lookups read from `users`. -/
theorem addUser_binds_password_to_email_column :
    insertColumns (addUserQuery sampleUser).text = ["name", "email", "password"]
      ∧ placeholders (addUserQuery sampleUser).text = [1, 2, 3]
      ∧ (addUserQuery sampleUser).values
        = [JSVal.str "Ann", JSVal.str "secret", JSVal.str "ann@example.com"]
      ∧ (insertColumns (addUserQuery sampleUser).text).map sampleUser.field
        = [JSVal.str "Ann", JSVal.str "ann@example.com", JSVal.str "secret"]
      ∧ insertTable (addUserQuery sampleUser).text = some "user"
      ∧ fromTable (getUserWithEmailQuery asciiToLowerCase "ann@example.com").text = some "users"
      ∧ fromTable (getUserWithIdQuery (JSVal.num ⟨1, by decide⟩)).text = some "users" := by
  refine ⟨?_, ?_, ?_, ?_, ?_, ?_, ?_⟩ <;> decide

end LightBnB
